import Mathlib

/-!
# Verification of the aurae node agent core

Shallow embedding of the aurae agent's VM lifecycle (`auraed/src/vms/vm.rs`,
`vm_service.rs`), the executables registry
(`auraed/src/cells/cell_service/executables/executables.rs`), the cell-service
target routing and retry policy (`auraed/src/cells/cell_service/cell_service.rs`)
and the graceful-shutdown coordinator (`auraed/src/graceful_shutdown.rs`),
together with proofs settling the specification's claims about them.

External effects (process spawning, signal delivery, the hypervisor, network
dials) are passed in as explicit oracle arguments, so that every registry
operation is a pure function of its inputs. Rust panics (`expect`/`assert!`)
and mutex self-deadlock are modelled as explicit outcome constructors.
-/

namespace Aurae

/-! ## VM data model (`auraed/src/vms/vm.rs`)

`VmState` is firecracker's `vmm::vmm_config::instance_info::VmState`; its
variants are `NotStarted`, `Paused` and `Running` — the enum has no `Stopped`
variant. -/

inductive VmState
  | NotStarted
  | Paused
  | Running
deriving DecidableEq, Repr

/-- Errors of `auraed/src/vms/error.rs` (`VmServiceError`).  The
`ClientError` variant is not reachable from the functions embedded here. -/
inductive VmServiceError
  | VmExists (vm_id : String)
  | VmNotFound (vm_id : String)
  | VmNotExited (vm_id : String)
  | KillError (vm_id : String) (error : String)
deriving DecidableEq, Repr

structure VirtualMachineSpec where
  kernel_image_path : String := ""
  kernel_args : List String := []
  rootfs_path : String := ""
  mac_address : String := ""
  host_dev_name : String := ""
  vcpus : Nat := 0
  memory_mb : Nat := 0
deriving DecidableEq, Repr

/-- The hypervisor handle `Arc<Mutex<Vmm>>`.  The `Vmm` itself is opaque; the
mutex around it is modelled by an explicit "already held" flag at each lock
site (`std::sync::Mutex` is not reentrant). -/
structure VmmHandle where
  token : Nat
deriving DecidableEq, Repr

structure VirtualMachine where
  id : String
  name : String
  spec : VirtualMachineSpec
  state : VmState
  vmm : Option VmmHandle
deriving DecidableEq, Repr

/-- Outcome of a `VirtualMachine` method.  `panic` models a Rust
`expect`/`unwrap` failure aborting the thread; `deadlock` models acquiring a
non-reentrant mutex that the same call already holds. -/
inductive VmOutcome
  | ok (vm : VirtualMachine)
  | err (e : VmServiceError) (vm : VirtualMachine)
  | panic
  | deadlock
deriving DecidableEq, Repr

/-- `VirtualMachine::new(name, spec)`: the id is a freshly generated UUID,
passed here as the `freshId` argument; state starts at `NotStarted` with no
hypervisor handle. -/
def VirtualMachine.new (freshId name : String) (spec : VirtualMachineSpec) :
    VirtualMachine :=
  { id := freshId, name := name, spec := spec, state := .NotStarted, vmm := none }

/-- `VirtualMachine::allocate`.  Requires `state = NotStarted`, otherwise
`Err(VmExists)`.  Building the microvm (`VmResources::from_json`,
`EventManager::new`, `build_microvm`) goes through `expect`, so a failed build
panics; `buildOk` is the oracle for its success and `handle` the handle the
build returns.  On success the handle is stored; the state is not changed. -/
def VirtualMachine.allocate (vm : VirtualMachine) (buildOk : Bool)
    (handle : VmmHandle) : VmOutcome :=
  match vm.state with
  | .NotStarted =>
      if buildOk then .ok { vm with vmm := some handle } else .panic
  | _ => .err (.VmExists vm.id) vm

/-- `VirtualMachine::start`.  If already `Running`, returns `Ok` unchanged.
Otherwise `self.vmm.as_ref().expect(..)` panics when no handle was built.
The state is set to `Running` *before* `resume_vm()` is consulted, so a failed
resume (`resumeOk = false`) still leaves the state at `Running` while
returning `Err(VmNotFound)`. -/
def VirtualMachine.start (vm : VirtualMachine) (resumeOk : Bool) : VmOutcome :=
  if vm.state = .Running then .ok vm
  else
    match vm.vmm with
    | none => .panic
    | some _ =>
        let vm := { vm with state := .Running }
        if resumeOk then .ok vm else .err (.VmNotFound vm.id) vm

/-- `VirtualMachine::stop`, parameterised by whether the caller already holds
the vmm mutex.  If the state is not `Running`, returns
`Err(KillError { "vm is not running" })` without touching the handle.
Otherwise it `expect`s the handle, locks the vmm mutex (deadlock when the
caller already holds it), calls `stop(FcExitCode::Ok)` and sets the state to
`NotStarted`. -/
def VirtualMachine.stopWithVmmLockHeld (vm : VirtualMachine)
    (lockHeld : Bool) : VmOutcome :=
  if vm.state ≠ .Running then
    .err (.KillError vm.id "vm is not running") vm
  else
    match vm.vmm with
    | none => .panic
    | some _ =>
        if lockHeld then .deadlock
        else .ok { vm with state := .NotStarted }

/-- `VirtualMachine::stop` as called externally: no lock is held on entry. -/
def VirtualMachine.stop (vm : VirtualMachine) : VmOutcome :=
  vm.stopWithVmmLockHeld false

/-- `VirtualMachine::free`.  `self.vmm.as_ref().expect(..)` panics when no
handle was built; then `vmm.lock()` acquires the vmm mutex and the guard stays
alive while `self.stop()` runs, so `stop` is entered with the lock held. -/
def VirtualMachine.free (vm : VirtualMachine) : VmOutcome :=
  match vm.vmm with
  | none => .panic
  | some _ => vm.stopWithVmmLockHeld true

/-! ### VM lifecycle traces -/

/-- One API call on a single `VirtualMachine`, with the oracle inputs the call
consumes. -/
inductive VmCmd
  | allocate (buildOk : Bool) (handle : VmmHandle)
  | start (resumeOk : Bool)
  | stop
deriving DecidableEq, Repr

def VirtualMachine.step (vm : VirtualMachine) : VmCmd → VmOutcome
  | .allocate b h => vm.allocate b h
  | .start r => vm.start r
  | .stop => vm.stop

/-- The state trajectory of a VM over a sequence of API calls: the state
before each call and after the last.  A panic or deadlock aborts the agent, so
the trace ends there. -/
def runTrace (vm : VirtualMachine) : List VmCmd → List VmState
  | [] => [vm.state]
  | c :: cs =>
      vm.state ::
        match vm.step c with
        | .ok vm' => runTrace vm' cs
        | .err _ vm' => runTrace vm' cs
        | .panic => []
        | .deadlock => []

/-- The virtual machine an outcome leaves behind, when the call returned at
all (both `Ok` and `Err` return; panic and deadlock do not). -/
def VmOutcome.resultVm : VmOutcome → Option VirtualMachine
  | .ok vm => some vm
  | .err _ vm => some vm
  | .panic => none
  | .deadlock => none

/-- Every API call leaves the state at its old value, `Running`, or
`NotStarted`; in particular `Paused` is never entered. -/
theorem step_state_cases (vm : VirtualMachine) (c : VmCmd)
    (vm' : VirtualMachine) (h : (vm.step c).resultVm = some vm') :
    vm'.state = vm.state ∨ vm'.state = .Running ∨ vm'.state = .NotStarted := by
  cases c with
  | allocate b hdl =>
      cases hst : vm.state <;>
        cases b <;>
          simp only [VirtualMachine.step, VirtualMachine.allocate, hst,
            Bool.false_eq_true, if_true, if_false, VmOutcome.resultVm,
            Option.some.injEq, reduceCtorEq] at h <;>
        subst h <;> simp [hst]
  | start r =>
      by_cases hst : vm.state = .Running
      · simp only [VirtualMachine.step, VirtualMachine.start, hst, if_pos,
          VmOutcome.resultVm, Option.some.injEq] at h
        subst h
        exact .inl rfl
      · cases hvm : vm.vmm <;>
          cases r <;>
            simp only [VirtualMachine.step, VirtualMachine.start, hvm,
              if_neg hst, Bool.false_eq_true, if_true, if_false,
              VmOutcome.resultVm, Option.some.injEq, reduceCtorEq] at h <;>
          subst h <;> simp
  | stop =>
      by_cases hst : vm.state = .Running
      · cases hvm : vm.vmm <;>
          simp only [VirtualMachine.step, VirtualMachine.stop,
            VirtualMachine.stopWithVmmLockHeld, hst, hvm, ne_eq,
            not_true_eq_false, if_false, Bool.false_eq_true, if_true,
            VmOutcome.resultVm, Option.some.injEq, reduceCtorEq] at h
        subst h
        simp
      · simp only [VirtualMachine.step, VirtualMachine.stop,
          VirtualMachine.stopWithVmmLockHeld, ne_eq, hst,
          not_false_eq_true, if_true, VmOutcome.resultVm,
          Option.some.injEq] at h
        subst h
        exact .inl rfl

/-- Trajectory invariant: starting from a non-`Paused` state, no state in the
trace is `Paused`. -/
theorem runTrace_not_paused (vm : VirtualMachine) (cmds : List VmCmd)
    (hvm : vm.state ≠ .Paused) :
    ∀ s ∈ runTrace vm cmds, s ≠ .Paused := by
  induction cmds generalizing vm with
  | nil => intro s hs; simp only [runTrace, List.mem_singleton] at hs; simpa [hs]
  | cons c cs ih =>
      intro s hs
      simp only [runTrace] at hs
      rcases List.mem_cons.mp hs with rfl | hs
      · exact hvm
      · cases hstep : vm.step c with
        | ok vm' =>
            rw [hstep] at hs
            refine ih vm' ?_ s hs
            have := step_state_cases vm c vm' (by rw [hstep]; rfl)
            rcases this with h | h | h <;> simp [h, hvm]
        | err e vm' =>
            rw [hstep] at hs
            refine ih vm' ?_ s hs
            have := step_state_cases vm c vm' (by rw [hstep]; rfl)
            rcases this with h | h | h <;> simp [h, hvm]
        | panic => rw [hstep] at hs; simp at hs
        | deadlock => rw [hstep] at hs; simp at hs

/-! ## Claim C1 -/

/-- C1 (amended): `stop` on a `Running` VM with a built handle returns `Ok`
and sets the state to `NotStarted` (the code's `VmState` has no `Stopped`
variant and `stop` writes `NotStarted`); `stop` on a VM that is not `Running`
returns `Err(KillError{"vm is not running"})` and leaves the machine
unchanged; over any sequence of allocate/start/stop calls every state in the
trajectory is `NotStarted` or `Running` — the states alternate and may be
revisited, so the trajectory is not confined to a prefix of a three-state
path. -/
theorem C1_vm_stop_lifecycle_amended :
    (∀ (vm : VirtualMachine) (h : VmmHandle), vm.state = .Running →
        vm.vmm = some h → vm.stop = .ok { vm with state := .NotStarted }) ∧
    (∀ vm : VirtualMachine, vm.state ≠ .Running →
        vm.stop = .err (.KillError vm.id "vm is not running") vm) ∧
    (∀ (i n : String) (sp : VirtualMachineSpec) (cmds : List VmCmd),
        ∀ s ∈ runTrace (VirtualMachine.new i n sp) cmds,
          s = .NotStarted ∨ s = .Running) := by
  refine ⟨?_, ?_, ?_⟩
  · intro vm h hst hvm
    simp [VirtualMachine.stop, VirtualMachine.stopWithVmmLockHeld, hst, hvm]
  · intro vm hst
    simp [VirtualMachine.stop, VirtualMachine.stopWithVmmLockHeld, hst]
  · intro i n sp cmds s hs
    have hnp := runTrace_not_paused (VirtualMachine.new i n sp) cmds
      (by simp [VirtualMachine.new]) s hs
    cases s with
    | NotStarted => exact .inl rfl
    | Paused => exact absurd rfl hnp
    | Running => exact .inr rfl

/-- C1 witness: the amended claim applied at a concrete Running VM and at a
concrete non-Running VM. -/
theorem C1_vm_stop_lifecycle_amended_witness :
    (({ id := "vm-1", name := "aurae-vm", spec := {}, state := .Running,
        vmm := some ⟨0⟩ } : VirtualMachine).stop
      = .ok { id := "vm-1", name := "aurae-vm", spec := {},
              state := .NotStarted, vmm := some ⟨0⟩ }) ∧
    (({ id := "vm-1", name := "aurae-vm", spec := {}, state := .NotStarted,
        vmm := some ⟨0⟩ } : VirtualMachine).stop
      = .err (.KillError "vm-1" "vm is not running")
          { id := "vm-1", name := "aurae-vm", spec := {},
            state := .NotStarted, vmm := some ⟨0⟩ }) :=
  ⟨C1_vm_stop_lifecycle_amended.1 _ ⟨0⟩ rfl rfl,
   C1_vm_stop_lifecycle_amended.2.1 _ (by simp)⟩

/-- C1 counterexample: after `allocate; start; stop; start` the concrete
trajectory is `[NotStarted, NotStarted, Running, NotStarted, Running]` —
`stop` from `Running` lands in `NotStarted`, not in a third "Stopped" state,
and the trajectory is not a prefix of `[NotStarted, Running, s]` for any
third state `s` (all three candidates are refuted). -/
theorem C1_vm_stop_lifecycle_counterexample :
    (runTrace (VirtualMachine.new "vm-1" "aurae-vm" {})
        [.allocate true ⟨0⟩, .start true, .stop, .start true]
      = [.NotStarted, .NotStarted, .Running, .NotStarted, .Running]) ∧
    ¬ (runTrace (VirtualMachine.new "vm-1" "aurae-vm" {})
        [.allocate true ⟨0⟩, .start true, .stop, .start true]
        <+: [.NotStarted, .Running, .NotStarted]) ∧
    ¬ (runTrace (VirtualMachine.new "vm-1" "aurae-vm" {})
        [.allocate true ⟨0⟩, .start true, .stop, .start true]
        <+: [.NotStarted, .Running, .Paused]) ∧
    ¬ (runTrace (VirtualMachine.new "vm-1" "aurae-vm" {})
        [.allocate true ⟨0⟩, .start true, .stop, .start true]
        <+: [.NotStarted, .Running, .Running]) := by
  refine ⟨by rfl, ?_, ?_, ?_⟩ <;>
    · intro hpre
      have hlen := hpre.length_le
      simp [show runTrace (VirtualMachine.new "vm-1" "aurae-vm" {})
          [.allocate true ⟨0⟩, .start true, .stop, .start true]
        = [.NotStarted, .NotStarted, .Running, .NotStarted, .Running] from rfl]
        at hlen

/-! ## Claim C4 -/

/-- C4: evaluation of the code at the failing inputs.  `free` on a `Running`
VM with a built handle self-deadlocks — it acquires the vmm mutex and keeps
the guard alive while `self.stop()` locks the same non-reentrant mutex again —
so it is not equivalent to stop-then-free (which succeeds in `stop` and then
returns the `KillError`); `free` on a `NotStarted` VM with a built handle
returns `Err(KillError{"vm is not running"})` without releasing the handle;
and stop-then-free from `Running` never deadlocks. -/
theorem C4_vm_free_deadlock_eval :
    (VirtualMachine.free
        { id := "vm-1", name := "aurae-vm", spec := {}, state := .Running,
          vmm := some ⟨0⟩ } = .deadlock) ∧
    (VirtualMachine.free
        { id := "vm-1", name := "aurae-vm", spec := {}, state := .NotStarted,
          vmm := some ⟨0⟩ }
      = .err (.KillError "vm-1" "vm is not running")
          { id := "vm-1", name := "aurae-vm", spec := {},
            state := .NotStarted, vmm := some ⟨0⟩ }) ∧
    (VirtualMachine.stop
        { id := "vm-1", name := "aurae-vm", spec := {}, state := .Running,
          vmm := some ⟨0⟩ }
      = .ok { id := "vm-1", name := "aurae-vm", spec := {},
              state := .NotStarted, vmm := some ⟨0⟩ }) :=
  ⟨rfl, rfl, rfl⟩

/-! ## VmService (`auraed/src/vms/vm_service.rs`)

The gRPC facade over `HashMap<String, VirtualMachine>`.  The hash map is an
association list whose keys stay unique because every write goes through
`vmInsertReplace`. -/

structure NetworkInterface where
  mac_address : String
  host_dev_name : String
deriving DecidableEq, Repr

structure RootDrive where
  host_path : String
  is_read_only : Bool := false
deriving DecidableEq, Repr

structure Machine where
  id : String
  mem_size_mb : Nat := 0
  vcpu_count : Nat := 0
  kernel_img_path : String := ""
  kernel_args : List String := []
  root_drive : Option RootDrive := none
  network_interfaces : List NetworkInterface := []
deriving DecidableEq, Repr

structure VmServiceAllocateRequest where
  machine : Option Machine
deriving DecidableEq, Repr

/-- gRPC status codes (tonic `Code`), restricted to the ones this development
mentions. -/
inductive Code
  | okCode
  | unknown
  | notFound
  | alreadyExists
  | invalidArgument
  | failedPrecondition
  | internal
  | unavailable
deriving DecidableEq, Repr

structure Status where
  code : Code
  message : String
deriving DecidableEq, Repr

/-- `impl From<VmServiceError> for Status` (`auraed/src/vms/error.rs`). -/
def VmServiceError.toStatus : VmServiceError → Status
  | .VmExists vm_id =>
      ⟨.alreadyExists, "vm '" ++ vm_id ++ "' already exists"⟩
  | .VmNotFound vm_id =>
      ⟨.notFound, "vm '" ++ vm_id ++ "' not found"⟩
  | .VmNotExited vm_id =>
      ⟨.failedPrecondition, "sandobx '" ++ vm_id ++ "' not in exited state"⟩
  | .KillError vm_id error =>
      ⟨.internal, "Failed to kill vm '" ++ vm_id ++ "': " ++ error⟩

abbrev VmRegistry := List (String × VirtualMachine)

def vmLookup (vms : VmRegistry) (id : String) : Option VirtualMachine :=
  (vms.find? (fun p => p.1 == id)).map (·.2)

def vmInsertReplace (vms : VmRegistry) (id : String)
    (vm : VirtualMachine) : VmRegistry :=
  (id, vm) :: vms.filter (fun p => !(p.1 == id))

/-- Outcome of a `VmService` handler: a response with the registry it leaves
behind, a gRPC error status, a panic (`expect`/`assert` failure), or a
deadlock inherited from `VirtualMachine`. -/
inductive SvcOutcome (α : Type)
  | ok (vms : VmRegistry) (resp : α)
  | err (vms : VmRegistry) (status : Status)
  | panic (msg : String)
  | deadlock
deriving DecidableEq, Repr

def SvcOutcome.isOkResult : SvcOutcome α → Bool
  | .ok _ _ => true
  | _ => false

/-- The registry an outcome leaves behind, when the handler returned. -/
def SvcOutcome.registryOf : SvcOutcome α → Option VmRegistry
  | .ok vms _ => some vms
  | .err vms _ => some vms
  | .panic _ => none
  | .deadlock => none

/-- The tail of `VmService::allocate` once the entry for `id` is determined:
the `entry(..).or_insert_with(..)` write followed by
`VirtualMachine::allocate` run on that entry in place (`vm.allocate()?`). -/
def VmService.allocateEntry (vms : VmRegistry) (id : String)
    (vm : VirtualMachine) (buildOk : Bool) (handle : VmmHandle) :
    SvcOutcome String :=
  let vms1 := vmInsertReplace vms id vm
  match vm.allocate buildOk handle with
  | .ok vm' => .ok (vmInsertReplace vms1 id vm') id
  | .err e _ => .err vms1 e.toStatus
  | .panic => .panic "creating vm resources / building microvm"
  | .deadlock => .deadlock

/-- The `VirtualMachine::new(machine.id, VirtualMachineSpec { .. })` value
built inside `VmService::allocate` from the request fields. -/
def VmService.newVm (machine : Machine) (freshId : String) (rd : RootDrive)
    (ni : NetworkInterface) : VirtualMachine :=
  VirtualMachine.new freshId machine.id
    { kernel_image_path := machine.kernel_img_path
    , kernel_args := machine.kernel_args
    , rootfs_path := rd.host_path
    , mac_address := ni.mac_address
    , host_dev_name := ni.host_dev_name
    , vcpus := machine.vcpu_count
    , memory_mb := machine.mem_size_mb }

/-- `VmService::allocate`.  `req.machine`, the machine's `root_drive` and its
first network interface are unwrapped with `expect` (panic when absent).  The
entry for `machine.id` is obtained with `entry(..).or_insert_with(..)`: an
existing entry is reused, otherwise a new `VirtualMachine` (with a fresh UUID,
passed as `freshId`, and `name` = the request's `machine.id`) is inserted.
`VirtualMachine::allocate` then runs on that entry in place; an error becomes
a gRPC status, success responds with the request's `machine.id`. -/
def VmService.allocate (vms : VmRegistry) (req : VmServiceAllocateRequest)
    (freshId : String) (buildOk : Bool) (handle : VmmHandle) :
    SvcOutcome String :=
  match req.machine with
  | none => .panic "vm allocate from request"
  | some machine =>
    match machine.root_drive with
    | none => .panic "vm root drive from request"
    | some root_drive =>
      match machine.network_interfaces.head? with
      | none => .panic "network interface from request"
      | some network_interface =>
        match vmLookup vms machine.id with
        | some vm =>
            VmService.allocateEntry vms machine.id vm buildOk handle
        | none =>
            VmService.allocateEntry vms machine.id
              (VmService.newVm machine freshId root_drive network_interface)
              buildOk handle

/-- `VmService::free`: `vms.get_mut(vm_id).expect("retrieving vm")` then
`vm.free().expect("freeing vm")`. -/
def VmService.free (vms : VmRegistry) (vm_id : String) : SvcOutcome Unit :=
  match vmLookup vms vm_id with
  | none => .panic "retrieving vm"
  | some vm =>
      match vm.free with
      | .ok vm' => .ok (vmInsertReplace vms vm_id vm') ()
      | .err _ _ => .panic "freeing vm"
      | .panic => .panic "retrieve vmm ref to free"
      | .deadlock => .deadlock

/-- `VmService::start`: `vms.get_mut(vm_id).expect("getting vm to start")`
then `vm.start().expect("starting vm")`. -/
def VmService.start (vms : VmRegistry) (vm_id : String)
    (resumeOk : Bool) : SvcOutcome Unit :=
  match vmLookup vms vm_id with
  | none => .panic "getting vm to start"
  | some vm =>
      match vm.start resumeOk with
      | .ok vm' => .ok (vmInsertReplace vms vm_id vm') ()
      | .err _ _ => .panic "starting vm"
      | .panic => .panic "retrieve vmm ref to start"
      | .deadlock => .deadlock

/-- `VmService::stop`: `vms.get_mut(vm_id).expect("getting vm to stop")`
then `vm.stop().expect("stopping vm")`. -/
def VmService.stop (vms : VmRegistry) (vm_id : String) : SvcOutcome Unit :=
  match vmLookup vms vm_id with
  | none => .panic "getting vm to stop"
  | some vm =>
      match vm.stop with
      | .ok vm' => .ok (vmInsertReplace vms vm_id vm') ()
      | .err _ _ => .panic "stopping vm"
      | .panic => .panic "retrieve vmm ref to stop"
      | .deadlock => .deadlock

theorem vmLookup_insertReplace_self (vms : VmRegistry) (id : String)
    (vm : VirtualMachine) :
    vmLookup (vmInsertReplace vms id vm) id = some vm := by
  simp [vmLookup, vmInsertReplace, List.find?]

theorem registryKeys_insertReplace_nodup (vms : VmRegistry) (id : String)
    (vm : VirtualMachine) (h : (vms.map (·.1)).Nodup) :
    ((vmInsertReplace vms id vm).map (·.1)).Nodup := by
  simp only [vmInsertReplace, List.map_cons]
  refine List.nodup_cons.mpr ⟨?_, ?_⟩
  · intro hmem
    rcases List.mem_map.mp hmem with ⟨p, hp, hpid⟩
    have hkeep := List.of_mem_filter hp
    simp [hpid] at hkeep
  · exact h.sublist ((List.filter_sublist _).map _)

/-! ## Claim C10 -/

/-- C10: for a `vm_id` absent from the registry the `free`, `start` and
`stop` handlers panic via `expect` rather than answering with a `VmNotFound`
status, and `allocate` panics when the request lacks a machine, when the
machine lacks a root drive, and when it has no network interface. -/
theorem C10_vm_service_panics_on_missing :
    (∀ (vms : VmRegistry) (vm_id : String), vmLookup vms vm_id = none →
        VmService.free vms vm_id = .panic "retrieving vm" ∧
        (∀ r, VmService.start vms vm_id r = .panic "getting vm to start") ∧
        VmService.stop vms vm_id = .panic "getting vm to stop") ∧
    (∀ (vms : VmRegistry) (freshId : String) (b : Bool) (h : VmmHandle),
        VmService.allocate vms ⟨none⟩ freshId b h
          = .panic "vm allocate from request") ∧
    (∀ (vms : VmRegistry) (mach : Machine) (freshId : String) (b : Bool)
        (h : VmmHandle), mach.root_drive = none →
        VmService.allocate vms ⟨some mach⟩ freshId b h
          = .panic "vm root drive from request") ∧
    (∀ (vms : VmRegistry) (mach : Machine) (freshId : String) (b : Bool)
        (h : VmmHandle) (rd : RootDrive), mach.root_drive = some rd →
        mach.network_interfaces = [] →
        VmService.allocate vms ⟨some mach⟩ freshId b h
          = .panic "network interface from request") := by
  refine ⟨fun vms vm_id hnone => ⟨?_, fun r => ?_, ?_⟩,
      fun vms freshId b h => rfl, fun vms mach freshId b h hrd => ?_,
      fun vms mach freshId b h rd hrd hni => ?_⟩
  · simp [VmService.free, hnone]
  · simp [VmService.start, hnone]
  · simp [VmService.stop, hnone]
  · simp [VmService.allocate, hrd]
  · simp [VmService.allocate, hrd, hni]

/-- C10 witness: the handlers evaluated on an empty registry and on
under-populated allocate requests. -/
theorem C10_vm_service_panics_on_missing_witness :
    (VmService.free [] "v1" = .panic "retrieving vm" ∧
      (∀ r, VmService.start [] "v1" r = .panic "getting vm to start") ∧
      VmService.stop [] "v1" = .panic "getting vm to stop") ∧
    VmService.allocate [] ⟨none⟩ "uuid-0" true ⟨0⟩
      = .panic "vm allocate from request" ∧
    VmService.allocate [] ⟨some { id := "v1" }⟩ "uuid-0" true ⟨0⟩
      = .panic "vm root drive from request" ∧
    VmService.allocate
        [] ⟨some { id := "v1", root_drive := some { host_path := "/r" } }⟩
        "uuid-0" true ⟨0⟩
      = .panic "network interface from request" :=
  ⟨C10_vm_service_panics_on_missing.1 [] "v1" rfl,
   C10_vm_service_panics_on_missing.2.1 [] "uuid-0" true ⟨0⟩,
   C10_vm_service_panics_on_missing.2.2.1 [] _ "uuid-0" true ⟨0⟩ rfl,
   C10_vm_service_panics_on_missing.2.2.2 [] _ "uuid-0" true ⟨0⟩ _ rfl rfl⟩

/-! ## Claim C5 -/

/-- A well-populated allocate request payload for VM id `v1`. -/
def c5Machine : Machine :=
  { id := "v1", root_drive := some { host_path := "/rootfs" },
    network_interfaces := [{ mac_address := "aa:bb", host_dev_name := "tap0" }] }

/-- The registry produced by a first successful `allocate` of `c5Machine`. -/
def c5RegistryAfterFirst : VmRegistry :=
  match VmService.allocate [] ⟨some c5Machine⟩ "uuid-1" true ⟨0⟩ with
  | .ok vms _ => vms
  | _ => []

/-- A VM registered under id `v1` that is currently `Running`. -/
def c5RunningVm : VirtualMachine :=
  { id := "uuid-run", name := "v1", spec := {}, state := .Running,
    vmm := some ⟨9⟩ }

/-- C5 counterexample: after a first successful `allocate` the id `v1` is
present in the registry, yet a second `allocate` for the same id succeeds
(`or_insert_with` reuses the existing entry, whose state is still
`NotStarted`, and rebuilds it) instead of being refused with `VmExists`. -/
theorem C5_vms_allocate_counterexample :
    (vmLookup c5RegistryAfterFirst "v1").isSome = true ∧
    (VmService.allocate c5RegistryAfterFirst ⟨some c5Machine⟩ "uuid-2" true
        ⟨1⟩).isOkResult = true := by
  exact ⟨rfl, rfl⟩

/-- C5 (amended): `allocate` refuses a duplicate id with `VmExists` only when
the registered VM's state is not `NotStarted`; an absent id is inserted,
built, and answered with the request's `machine.id`; a present id whose VM is
still `NotStarted` is rebuilt in place (its hypervisor handle replaced) and
also answered with `machine.id`; and every handler outcome leaves at most one
registry entry per id. -/
theorem C5_vms_allocate_amended :
    (∀ (vms : VmRegistry) (mach : Machine) (freshId : String) (b : Bool)
        (h : VmmHandle) (vm : VirtualMachine) (rd : RootDrive)
        (ni : NetworkInterface) (nis : List NetworkInterface),
        mach.root_drive = some rd →
        mach.network_interfaces = ni :: nis →
        vmLookup vms mach.id = some vm →
        vm.state ≠ .NotStarted →
        VmService.allocate vms ⟨some mach⟩ freshId b h
          = .err (vmInsertReplace vms mach.id vm)
              (VmServiceError.VmExists vm.id).toStatus) ∧
    (∀ (vms : VmRegistry) (mach : Machine) (freshId : String)
        (h : VmmHandle) (rd : RootDrive) (ni : NetworkInterface)
        (nis : List NetworkInterface),
        mach.root_drive = some rd →
        mach.network_interfaces = ni :: nis →
        vmLookup vms mach.id = none →
        VmService.allocate vms ⟨some mach⟩ freshId true h
            = .ok (vmInsertReplace
                (vmInsertReplace vms mach.id
                  (VmService.newVm mach freshId rd ni)) mach.id
                { VmService.newVm mach freshId rd ni with vmm := some h })
              mach.id ∧
        vmLookup
            (vmInsertReplace
              (vmInsertReplace vms mach.id
                (VmService.newVm mach freshId rd ni)) mach.id
              { VmService.newVm mach freshId rd ni with vmm := some h })
            mach.id
          = some { VmService.newVm mach freshId rd ni with vmm := some h }) ∧
    (∀ (vms : VmRegistry) (mach : Machine) (freshId : String)
        (h : VmmHandle) (vm : VirtualMachine) (rd : RootDrive)
        (ni : NetworkInterface) (nis : List NetworkInterface),
        mach.root_drive = some rd →
        mach.network_interfaces = ni :: nis →
        vmLookup vms mach.id = some vm →
        vm.state = .NotStarted →
        VmService.allocate vms ⟨some mach⟩ freshId true h
          = .ok (vmInsertReplace (vmInsertReplace vms mach.id vm) mach.id
                  { vm with vmm := some h }) mach.id) ∧
    (∀ (vms : VmRegistry) (req : VmServiceAllocateRequest) (freshId : String)
        (b : Bool) (h : VmmHandle) (vms' : VmRegistry),
        (vms.map (·.1)).Nodup →
        (VmService.allocate vms req freshId b h).registryOf = some vms' →
        (vms'.map (·.1)).Nodup) := by
  have hentry : ∀ (vms : VmRegistry) (id : String) (vm : VirtualMachine)
      (b : Bool) (h : VmmHandle) (vms' : VmRegistry),
      (vms.map (·.1)).Nodup →
      (VmService.allocateEntry vms id vm b h).registryOf = some vms' →
      (vms'.map (·.1)).Nodup := by
    intro vms id vm b h vms' hnd hreg
    cases halloc : vm.allocate b h <;>
      simp only [VmService.allocateEntry, halloc,
        SvcOutcome.registryOf, Option.some.injEq, reduceCtorEq] at hreg
    · exact hreg ▸ registryKeys_insertReplace_nodup _ _ _
        (registryKeys_insertReplace_nodup _ _ _ hnd)
    · exact hreg ▸ registryKeys_insertReplace_nodup _ _ _ hnd
  refine ⟨?_, ?_, ?_, ?_⟩
  · intro vms mach freshId b h vm rd ni nis hrd hni hvm hst
    have halloc : vm.allocate b h = .err (.VmExists vm.id) vm := by
      cases hs : vm.state with
      | NotStarted => exact absurd hs hst
      | Paused => simp [VirtualMachine.allocate, hs]
      | Running => simp [VirtualMachine.allocate, hs]
    simp [VmService.allocate, hrd, hni, hvm, VmService.allocateEntry, halloc]
  · intro vms mach freshId h rd ni nis hrd hni hvm
    refine ⟨?_, vmLookup_insertReplace_self _ _ _⟩
    simp [VmService.allocate, hrd, hni, hvm, VmService.allocateEntry,
      VmService.newVm, VirtualMachine.allocate, VirtualMachine.new]
  · intro vms mach freshId h vm rd ni nis hrd hni hvm hst
    have halloc : vm.allocate true h = .ok { vm with vmm := some h } := by
      simp [VirtualMachine.allocate, hst]
    simp [VmService.allocate, hrd, hni, hvm, VmService.allocateEntry, halloc]
  · intro vms req freshId b h vms' hnd hreg
    rcases req with ⟨machine⟩
    cases machine with
    | none => simp [VmService.allocate, SvcOutcome.registryOf] at hreg
    | some mach =>
        cases hrd : mach.root_drive with
        | none =>
            simp [VmService.allocate, hrd, SvcOutcome.registryOf] at hreg
        | some rd =>
            cases hni : mach.network_interfaces.head? with
            | none =>
                simp [VmService.allocate, hrd, hni,
                  SvcOutcome.registryOf] at hreg
            | some ni =>
                cases hvm : vmLookup vms mach.id with
                | some vm =>
                    refine hentry vms mach.id vm b h vms' hnd ?_
                    rw [← hreg]
                    simp [VmService.allocate, hrd, hni, hvm]
                | none =>
                    refine hentry vms mach.id
                      (VmService.newVm mach freshId rd ni) b h vms' hnd ?_
                    rw [← hreg]
                    simp [VmService.allocate, hrd, hni, hvm]

/-- C5 witness: the amended claim applied at concrete registries — a Running
VM under `v1` is refused with `VmExists`, and a fresh id is inserted and
answered. -/
theorem C5_vms_allocate_amended_witness :
    (VmService.allocate [("v1", c5RunningVm)] ⟨some c5Machine⟩ "uuid-3" true
        ⟨2⟩
      = .err (vmInsertReplace [("v1", c5RunningVm)] "v1" c5RunningVm)
          (VmServiceError.VmExists c5RunningVm.id).toStatus) ∧
    (VmService.allocate [] ⟨some c5Machine⟩ "uuid-1" true ⟨0⟩
        = .ok (vmInsertReplace
            (vmInsertReplace []
              "v1" (VmService.newVm c5Machine "uuid-1"
                      { host_path := "/rootfs" }
                      { mac_address := "aa:bb", host_dev_name := "tap0" }))
            "v1"
            { VmService.newVm c5Machine "uuid-1" { host_path := "/rootfs" }
                { mac_address := "aa:bb", host_dev_name := "tap0" } with
              vmm := some ⟨0⟩ })
          "v1") :=
  ⟨C5_vms_allocate_amended.1 _ c5Machine _ _ _ _ _ _ _ rfl rfl rfl
      (by simp [c5RunningVm]),
   (C5_vms_allocate_amended.2.1 [] c5Machine "uuid-1" ⟨0⟩ _ _ _ rfl rfl
      rfl).1⟩

/-! ## Executables registry
(`auraed/src/cells/cell_service/executables/executables.rs`)

Process spawning and signal delivery are OS effects; the outcome of
`Executable::start` and `Executable::kill` is passed in as an explicit
argument of the registry operation that performs it. -/

/-- The slice of `std::io::ErrorKind` the code distinguishes: `NotFound`
versus everything else. -/
inductive ErrorKind
  | notFoundKind
  | otherKind
deriving DecidableEq, Repr

/-- A `std::io::Error`: its kind and its raw OS errno, when it has one. -/
structure IoError where
  kind : ErrorKind
  raw_os_error : Option Int := none
deriving DecidableEq, Repr

/-- `libc::ESRCH` on Linux. -/
def ESRCH : Int := 3

/-- `libc::ECHILD` on Linux. -/
def ECHILD : Int := 10

/-- Modelled from the spec: `ExecutableSpec` (the file defining it,
`executables/executable.rs`, is not among the provided sources; spec §3 says
an executable's spec is its argv and working directory under a unique
`ExecutableName`). -/
structure ExecutableSpec where
  name : String
  argv : List String := []
  workdir : String := ""
deriving DecidableEq, Repr

/-- Modelled from the spec: an `Executable` as stored in the registry — its
name, its spec, and the pid recorded once started (spec §3: "post-fork pid
(once started)"). -/
structure Executable where
  name : String
  spec : ExecutableSpec
  pid : Option Nat := none
deriving DecidableEq, Repr

def Executable.new (spec : ExecutableSpec) : Executable :=
  { name := spec.name, spec := spec }

inductive ExecutablesError
  | ExecutableExists (executable_name : String)
  | ExecutableNotFound (executable_name : String)
  | FailedToStartExecutable (executable_name : String) (source : IoError)
  | FailedToStopExecutable (executable_name : String) (source : IoError)
deriving DecidableEq, Repr

/-- The in-memory store `Executables { cache: HashMap<ExecutableName,
Executable> }`, as an association list with unique keys. -/
structure Executables where
  cache : List (String × Executable)
deriving DecidableEq, Repr

def Executables.lookup (r : Executables) (n : String) : Option Executable :=
  (r.cache.find? (fun p => p.1 == n)).map (·.2)

def Executables.containsKey (r : Executables) (n : String) : Bool :=
  (r.lookup n).isSome

def Executables.removeKey (r : Executables) (n : String) : Executables :=
  ⟨r.cache.filter (fun p => !(p.1 == n))⟩

/-- Result of `Executables::start`: the registry afterwards, the returned
value, and whether the child spawn (`executable.start`) was reached at all. -/
structure StartOutcome where
  registry : Executables
  result : Except ExecutablesError Executable
  spawnAttempted : Bool
deriving Repr

/-- `Executables::start(spec, uid, gid)`: the duplicate-name check runs
first (no spawn on a hit); then the child is spawned — the OS outcome is the
`spawnResult` argument (`Ok(pid)` or an error, which becomes
`FailedToStartExecutable` with the cache untouched); on success the
executable is inserted under its name.  `uid`/`gid` only parameterise the
external spawn. -/
def Executables.start (r : Executables) (spec : ExecutableSpec)
    (uid gid : Option Nat) (spawnResult : Except IoError Nat) :
    StartOutcome :=
  if r.containsKey spec.name then
    ⟨r, .error (.ExecutableExists spec.name), false⟩
  else
    match spawnResult with
    | .error e => ⟨r, .error (.FailedToStartExecutable spec.name e), true⟩
    | .ok pid =>
        let executable := { Executable.new spec with pid := some pid }
        ⟨⟨(spec.name, executable) :: r.cache⟩, .ok executable, true⟩

/-- `Executables::stop(name)`: a missing name is `ExecutableNotFound`;
otherwise `executable.kill()` runs (its outcome is the `killResult`
argument: `Ok(Some(status))`, `Ok(None)` for never-started, or an OS error)
and the entry is removed from the cache *regardless* of that outcome; then
the kill result is translated — an error whose kind is `NotFound` or whose
raw errno is `ESRCH`/`ECHILD` becomes `Ok(ExitStatus::from_raw(0))`, any
other error becomes `FailedToStopExecutable`. -/
def Executables.stop (r : Executables) (executable_name : String)
    (killResult : Except IoError (Option Int)) :
    Executables × Except ExecutablesError Int :=
  match r.lookup executable_name with
  | none => (r, .error (.ExecutableNotFound executable_name))
  | some _ =>
      let r' := r.removeKey executable_name
      match killResult with
      | .ok (some status) => (r', .ok status)
      | .ok none => (r', .error (.ExecutableNotFound executable_name))
      | .error e =>
          if e.kind = .notFoundKind ∨ e.raw_os_error = some ESRCH
              ∨ e.raw_os_error = some ECHILD then
            (r', .ok 0)
          else
            (r', .error (.FailedToStopExecutable executable_name e))

theorem find?_filter_not_beq (l : List (String × Executable)) (n : String) :
    (l.filter (fun p => !(p.1 == n))).find? (fun p => p.1 == n) = none := by
  induction l with
  | nil => rfl
  | cons p l ih =>
      cases hp : (p.1 == n) <;>
        simp [List.filter_cons, hp, List.find?_cons, ih]

theorem containsKey_removeKey_self (r : Executables) (n : String) :
    (r.removeKey n).containsKey n = false := by
  simp [Executables.containsKey, Executables.lookup, Executables.removeKey,
    find?_filter_not_beq]

/-- The registry `stop` leaves behind: unchanged on a miss, the entry removed
on a hit — independently of the kill outcome. -/
theorem Executables.stop_fst (r : Executables) (n : String)
    (k : Except IoError (Option Int)) :
    (r.stop n k).1 = match r.lookup n with
      | none => r
      | some _ => r.removeKey n := by
  cases hl : r.lookup n <;> simp only [Executables.stop, hl]
  rcases k with e | o
  · by_cases hcond : e.kind = .notFoundKind ∨ e.raw_os_error = some ESRCH
        ∨ e.raw_os_error = some ECHILD <;> simp [hcond]
  · cases o <;> rfl

/-! ## Claim C2 -/

/-- C2: `Executables.start` returns `ExecutableExists` for an
already-registered name and the check happens before any spawn
(`spawnAttempted = false`); a failed spawn returns
`FailedToStartExecutable` with the registry exactly as before; a successful
spawn inserts the executable under its name. -/
theorem C2_executables_start :
    (∀ (r : Executables) (spec : ExecutableSpec) (uid gid : Option Nat)
        (sr : Except IoError Nat), r.containsKey spec.name = true →
        (r.start spec uid gid sr).result
            = .error (.ExecutableExists spec.name) ∧
        (r.start spec uid gid sr).spawnAttempted = false ∧
        (r.start spec uid gid sr).registry = r) ∧
    (∀ (r : Executables) (spec : ExecutableSpec) (uid gid : Option Nat)
        (e : IoError), r.containsKey spec.name = false →
        (r.start spec uid gid (.error e)).result
            = .error (.FailedToStartExecutable spec.name e) ∧
        (r.start spec uid gid (.error e)).registry = r) ∧
    (∀ (r : Executables) (spec : ExecutableSpec) (uid gid : Option Nat)
        (pid : Nat), r.containsKey spec.name = false →
        (r.start spec uid gid (.ok pid)).result
            = .ok { Executable.new spec with pid := some pid } ∧
        (r.start spec uid gid (.ok pid)).registry.lookup spec.name
            = some { Executable.new spec with pid := some pid }) := by
  refine ⟨fun r spec uid gid sr hc => ?_, fun r spec uid gid e hc => ?_,
    fun r spec uid gid pid hc => ?_⟩
  · simp [Executables.start, hc]
  · simp [Executables.start, hc]
  · refine ⟨by simp [Executables.start, hc], ?_⟩
    simp [Executables.start, hc, Executables.lookup, List.find?_cons]

/-- C2 witness: the three branches applied at concrete registries. -/
theorem C2_executables_start_witness :
    ((Executables.mk
        [("exe1", { Executable.new { name := "exe1" } with pid := some 7 })]
      ).start { name := "exe1" } none none (.ok 8)).result
        = .error (.ExecutableExists "exe1") ∧
    ((Executables.mk []).start { name := "exe1" } none none
        (.error { kind := .otherKind, raw_os_error := some 13 })).registry
      = Executables.mk [] ∧
    ((Executables.mk []).start { name := "exe1" } none none
        (.ok 42)).registry.lookup "exe1"
      = some { Executable.new { name := "exe1" } with pid := some 42 } :=
  ⟨(C2_executables_start.1
      (Executables.mk
        [("exe1", { Executable.new { name := "exe1" } with pid := some 7 })])
      { name := "exe1" } none none (.ok 8) rfl).1,
   (C2_executables_start.2.1 (Executables.mk []) { name := "exe1" } none none
      { kind := .otherKind, raw_os_error := some 13 } rfl).2,
   (C2_executables_start.2.2 (Executables.mk []) { name := "exe1" } none none
      42 rfl).2⟩

/-! ## Claim C3 -/

/-- C3: for every name present in the registry, `stop` removes it regardless
of the kill outcome; and for any name at all, `stop` twice in a row (any kill
outcomes, no intervening `start`) answers `ExecutableNotFound` the second
time. -/
theorem C3_executables_stop_removes :
    (∀ (r : Executables) (n : String) (k : Except IoError (Option Int)),
        r.containsKey n = true →
        (r.stop n k).1.containsKey n = false) ∧
    (∀ (r : Executables) (n : String)
        (k₁ k₂ : Except IoError (Option Int)),
        ((r.stop n k₁).1.stop n k₂).2 = .error (.ExecutableNotFound n)) := by
  have hfst_contains : ∀ (r : Executables) (n : String)
      (k : Except IoError (Option Int)),
      (r.stop n k).1.containsKey n = false ∨ (r.stop n k).1 = r := by
    intro r n k
    rw [Executables.stop_fst]
    cases hl : r.lookup n
    · exact .inr rfl
    · exact .inl (containsKey_removeKey_self r n)
  refine ⟨fun r n k hc => ?_, fun r n k₁ k₂ => ?_⟩
  · rw [Executables.stop_fst]
    cases hl : r.lookup n
    · rw [Executables.containsKey, hl] at hc; cases hc
    · exact containsKey_removeKey_self r n
  · have hnone : (r.stop n k₁).1.lookup n = none := by
      rw [Executables.stop_fst]
      cases hl : r.lookup n
      · exact hl
      · simp [Executables.lookup, Executables.removeKey,
          find?_filter_not_beq]
    generalize (r.stop n k₁).1 = r₁ at hnone
    simp [Executables.stop, hnone]

/-- C3 witness: a concrete registry holding `exe1`: the first `stop` removes
it although the kill failed, the second answers `ExecutableNotFound`. -/
theorem C3_executables_stop_removes_witness :
    ((Executables.mk
        [("exe1", { Executable.new { name := "exe1" } with pid := some 7 })]
      ).stop "exe1"
        (.error { kind := .otherKind, raw_os_error := some 1 })
      ).1.containsKey "exe1" = false ∧
    (((Executables.mk
        [("exe1", { Executable.new { name := "exe1" } with pid := some 7 })]
      ).stop "exe1" (.ok (some 0))).1.stop "exe1" (.ok (some 0))).2
      = .error (.ExecutableNotFound "exe1") :=
  ⟨C3_executables_stop_removes.1 _ "exe1" _ rfl,
   C3_executables_stop_removes.2 _ "exe1" _ _⟩

/-! ## Claim C8 -/

/-- C8: when the kill fails because the process was already reaped (error
kind `NotFound`, or raw errno `ESRCH` or `ECHILD`), `stop` on a registered
name answers success with the synthetic zero exit status and the registry no
longer contains the executable. -/
theorem C8_stop_reaped_synthetic_zero :
    ∀ (r : Executables) (n : String) (e : IoError),
      r.containsKey n = true →
      (e.kind = .notFoundKind ∨ e.raw_os_error = some ESRCH
        ∨ e.raw_os_error = some ECHILD) →
      (r.stop n (.error e)).2 = .ok 0 ∧
      (r.stop n (.error e)).1.containsKey n = false := by
  intro r n e hc hreaped
  rcases Option.isSome_iff_exists.mp hc with ⟨exe, hexe⟩
  rw [Executables.containsKey] at hc
  constructor
  · rcases hl : r.lookup n with _ | exe'
    · rw [hl] at hc; cases hc
    · simp [Executables.stop, hl, hreaped]
  · rw [Executables.stop_fst]
    rcases hl : r.lookup n with _ | exe'
    · rw [hl] at hc; cases hc
    · exact containsKey_removeKey_self r n

/-- C8 witness: a concrete registry, killed with raw errno `ESRCH`. -/
theorem C8_stop_reaped_synthetic_zero_witness :
    ((Executables.mk
        [("exe1", { Executable.new { name := "exe1" } with pid := some 7 })]
      ).stop "exe1"
        (.error { kind := .otherKind, raw_os_error := some 3 })).2
      = .ok 0 ∧
    ((Executables.mk
        [("exe1", { Executable.new { name := "exe1" } with pid := some 7 })]
      ).stop "exe1"
        (.error { kind := .otherKind, raw_os_error := some 3 })
      ).1.containsKey "exe1" = false :=
  C8_stop_reaped_synthetic_zero _ "exe1"
    { kind := .otherKind, raw_os_error := some 3 } rfl (.inr (.inl rfl))

/-! ## GracefulShutdown (`auraed/src/graceful_shutdown.rs`)

`GracefulShutdown::wait`, from the point where the shutdown broadcast has
been sent and all subscribers have dropped.  The four drain operations are
external calls; their outcomes are the fields of `ShutdownResults`, and the
coordinator's behaviour is the list of calls and error logs it emits. -/

inductive ShutdownCall
  | cellStopAll
  | cellFreeAll
  | vmStopAll
  | vmFreeAll
deriving DecidableEq, Repr

inductive ShutdownEvent
  | call (c : ShutdownCall)
  | logError (msg : String)
deriving DecidableEq, Repr

def ShutdownEvent.callOf : ShutdownEvent → Option ShutdownCall
  | .call c => some c
  | .logError _ => none

structure ShutdownResults where
  cellStopAll : Except String Unit
  cellFreeAll : Except String Unit
  vmStopAll : Except String Unit
  vmFreeAll : Except String Unit

def exceptOk : Except String Unit → Bool
  | .ok _ => true
  | .error _ => false

/-- The drain phase of `GracefulShutdown::wait` (after the broadcast):
`if let Err(e) = cell_service.stop_all() { error!(..) } else if let Err(e) =
cell_service.free_all() { error!(..) }`, then `if let Err(e) =
vm_service.stop_all() { error!(..) }`, then `if let Err(e) =
vm_service.free_all() { error!(..) }`.  The function is total and returns in
every case: errors are logged, never propagated. -/
def gracefulShutdownDrain (res : ShutdownResults) : List ShutdownEvent :=
  (match res.cellStopAll with
   | .error e => [.call .cellStopAll, .logError e]
   | .ok _ =>
       match res.cellFreeAll with
       | .error e => [.call .cellStopAll, .call .cellFreeAll, .logError e]
       | .ok _ => [.call .cellStopAll, .call .cellFreeAll])
  ++ (match res.vmStopAll with
      | .error e => [.call .vmStopAll, .logError e]
      | .ok _ => [.call .vmStopAll])
  ++ (match res.vmFreeAll with
      | .error e => [.call .vmFreeAll, .logError e]
      | .ok _ => [.call .vmFreeAll])

/-! ## Claim C9 -/

/-- C9: after the broadcast the coordinator always calls
`CellService.stop_all`, calls `CellService.free_all` exactly when that stop
succeeded, and then calls `VmService.stop_all` followed unconditionally by
`VmService.free_all`; the call sequence is
`[cellStopAll, cellFreeAll, vmStopAll, vmFreeAll]` when the cell stop
succeeded and `[cellStopAll, vmStopAll, vmFreeAll]` when it failed, with
every failure only logged — the coordinator completes in all cases. -/
theorem C9_graceful_shutdown_order :
    ∀ res : ShutdownResults,
      (ShutdownEvent.call .cellStopAll) ∈ gracefulShutdownDrain res ∧
      ((ShutdownEvent.call .cellFreeAll) ∈ gracefulShutdownDrain res
          ↔ exceptOk res.cellStopAll = true) ∧
      (ShutdownEvent.call .vmStopAll) ∈ gracefulShutdownDrain res ∧
      (ShutdownEvent.call .vmFreeAll) ∈ gracefulShutdownDrain res ∧
      (exceptOk res.cellStopAll = true →
        (gracefulShutdownDrain res).filterMap ShutdownEvent.callOf
          = [.cellStopAll, .cellFreeAll, .vmStopAll, .vmFreeAll]) ∧
      (exceptOk res.cellStopAll = false →
        (gracefulShutdownDrain res).filterMap ShutdownEvent.callOf
          = [.cellStopAll, .vmStopAll, .vmFreeAll]) := by
  intro res
  obtain ⟨cs, cf, vs, vf⟩ := res
  cases cs <;> cases cf <;> cases vs <;> cases vf <;>
    simp [gracefulShutdownDrain, exceptOk, ShutdownEvent.callOf,
      List.filterMap_cons]

/-- C9 witness: an all-success run and a run whose cell stop (and VM stop)
fail. -/
theorem C9_graceful_shutdown_order_witness :
    (gracefulShutdownDrain ⟨.ok (), .ok (), .ok (), .ok ()⟩).filterMap
        ShutdownEvent.callOf
      = [.cellStopAll, .cellFreeAll, .vmStopAll, .vmFreeAll] ∧
    (gracefulShutdownDrain
        ⟨.error "cells", .ok (), .error "vms", .ok ()⟩).filterMap
        ShutdownEvent.callOf
      = [.cellStopAll, .vmStopAll, .vmFreeAll] ∧
    (ShutdownEvent.call .vmFreeAll)
      ∈ gracefulShutdownDrain ⟨.error "cells", .ok (), .error "vms", .ok ()⟩ :=
  ⟨(C9_graceful_shutdown_order ⟨.ok (), .ok (), .ok (), .ok ()⟩).2.2.2.2.1
      rfl,
   (C9_graceful_shutdown_order
      ⟨.error "cells", .ok (), .error "vms", .ok ()⟩).2.2.2.2.2 rfl,
   (C9_graceful_shutdown_order
      ⟨.error "cells", .ok (), .error "vms", .ok ()⟩).2.2.2.1⟩

/-! ## CellService request routing
(`auraed/src/cells/cell_service/cell_service.rs`)

The `ExecutionTarget` resolution, the legacy `cell_name` conversion in the
`start`/`stop` trait implementations, and the request rewrite applied by
`do_in_target!` before the RPC is re-invoked against the remote agent. -/

structure ExecutionTarget where
  vm_id : Option String := none
  cell_path : Option String := none
deriving DecidableEq, Repr

/-- The proto `Executable` payload carried by a start request — opaque for
routing purposes. -/
structure ProtoExecutable where
  raw : String := ""
deriving DecidableEq, Repr

structure CellServiceStartRequest where
  cell_name : Option String := none
  executable : Option ProtoExecutable := none
  uid : Option Nat := none
  gid : Option Nat := none
  execution_target : Option ExecutionTarget := none
deriving DecidableEq, Repr

structure CellServiceStopRequest where
  cell_name : Option String := none
  executable_name : String := ""
  execution_target : Option ExecutionTarget := none
deriving DecidableEq, Repr

/-- `client::AuraeSocket`: a Unix socket path (cells) or a network address
(VM guest agents). -/
inductive AuraeSocket
  | path (p : String)
  | addr (a : String)
deriving DecidableEq, Repr

/-- `ResolvedTarget` of `cell_service.rs`: local, a cell behind a Unix
socket, or a VM behind a TLS network socket with the carried `cell_path`. -/
inductive ResolvedTarget
  | localTarget
  | cellTarget (socket : AuraeSocket)
  | vmTarget (socket : AuraeSocket) (cell_path : Option String)
deriving DecidableEq, Repr

/-- `CellService::resolve_target`.  The live registries appear as lookup
oracles: `vmSocket` is `vm_service.get_vm_socket(vm_id)` (an address only
while the VM is running), `validCellName` is `CellName::validate`, and
`cellSocket` is `cells.get(&cell_name, |cell| cell.client_socket())`;
`hasVmService` says whether the service was constructed with a `VmService`.
A `vm_id` takes priority; then a `cell_path`; neither means local. -/
def resolveTarget (hasVmService : Bool) (vmSocket : String → Option String)
    (validCellName : String → Bool)
    (cellSocket : String → Option AuraeSocket)
    (target : ExecutionTarget) : Except String ResolvedTarget :=
  match target.vm_id with
  | some vm_id =>
      if !hasVmService then
        .error "VM targeting not available (VmService not configured)"
      else
        match vmSocket vm_id with
        | none => .error ("vm not running: " ++ vm_id)
        | some a => .ok (.vmTarget (.addr a) target.cell_path)
  | none =>
      match target.cell_path with
      | some cell_path =>
          if !(validCellName cell_path) then
            .error ("invalid cell path: " ++ cell_path)
          else
            match cellSocket cell_path with
            | none => .error ("cells error: " ++ cell_path)
            | some s => .ok (.cellTarget s)
      | none => .ok .localTarget

/-- The request-rewrite closure of `CellService::start_in_target`: cell_name
is replaced by the passed `cell_path`, the payload fields are kept, and
`execution_target` is cleared. -/
def startTransformRequest (req : CellServiceStartRequest)
    (cell_path : Option String) : CellServiceStartRequest :=
  { cell_name := cell_path
  , executable := req.executable
  , uid := req.uid
  , gid := req.gid
  , execution_target := none }

/-- The request-rewrite closure of `CellService::stop_in_target`. -/
def stopTransformRequest (req : CellServiceStopRequest)
    (cell_path : Option String) : CellServiceStopRequest :=
  { cell_name := cell_path
  , executable_name := req.executable_name
  , execution_target := none }

/-- The request `do_in_target!` actually sends for a start: the `Cell`
branch calls the transform with `None`, the `Vm` branch with the resolved
target's carried `cell_path`; a `Local` resolution is an error and nothing
is sent. -/
def forwardedStartRequest (resolved : ResolvedTarget)
    (req : CellServiceStartRequest) : Option CellServiceStartRequest :=
  match resolved with
  | .localTarget => none
  | .cellTarget _ => some (startTransformRequest req none)
  | .vmTarget _ cell_path => some (startTransformRequest req cell_path)

/-- The request `do_in_target!` actually sends for a stop. -/
def forwardedStopRequest (resolved : ResolvedTarget)
    (req : CellServiceStopRequest) : Option CellServiceStopRequest :=
  match resolved with
  | .localTarget => none
  | .cellTarget _ => some (stopTransformRequest req none)
  | .vmTarget _ cell_path => some (stopTransformRequest req cell_path)

/-- How a request leaves the trait-level handler: executed locally or
forwarded at a target. -/
inductive Route (ρ : Type)
  | localExec (request : ρ)
  | forward (target : ExecutionTarget) (request : ρ)
deriving DecidableEq, Repr

/-- The target selection and legacy `cell_name` conversion at the top of the
`CellService::start` trait implementation: a populated `execution_target`
wins; otherwise a populated legacy `cell_name` is converted to
`ExecutionTarget { cell_path: cell_name }`; when a target was chosen,
`request.cell_name` is cleared before forwarding. -/
def cellServiceStartRoute (req : CellServiceStartRequest) :
    Route CellServiceStartRequest :=
  let target : Option ExecutionTarget :=
    match req.execution_target with
    | some t =>
        if t.vm_id.isSome || t.cell_path.isSome then some t else none
    | none =>
        match req.cell_name with
        | some cell_name =>
            some { vm_id := none, cell_path := some cell_name }
        | none => none
  match target with
  | some t => .forward t { req with cell_name := none }
  | none => .localExec req

/-- The identical logic at the top of the `CellService::stop` trait
implementation. -/
def cellServiceStopRoute (req : CellServiceStopRequest) :
    Route CellServiceStopRequest :=
  let target : Option ExecutionTarget :=
    match req.execution_target with
    | some t =>
        if t.vm_id.isSome || t.cell_path.isSome then some t else none
    | none =>
        match req.cell_name with
        | some cell_name =>
            some { vm_id := none, cell_path := some cell_name }
        | none => none
  match target with
  | some t => .forward t { req with cell_name := none }
  | none => .localExec req

/-! ## Claim C6 -/

/-- C6 counterexample: a start request targeting the cell path `a` resolves
to the cell's socket, but the forwarded request has `cell_name = None`, not
the forwarded cell path `Some "a"` — the `Cell` branch of `do_in_target!`
calls the transform with `None`. -/
theorem C6_target_rewrite_counterexample :
    (resolveTarget true (fun _ => none) (fun _ => true)
        (fun _ => some (.path "/var/run/aurae/cell-a.sock"))
        { vm_id := none, cell_path := some "a" }
      = .ok (.cellTarget (.path "/var/run/aurae/cell-a.sock"))) ∧
    (forwardedStartRequest (.cellTarget (.path "/var/run/aurae/cell-a.sock"))
        { executable := some { raw := "e" } }
      = some { cell_name := none, executable := some { raw := "e" },
               uid := none, gid := none, execution_target := none }) ∧
    ((forwardedStartRequest
          (.cellTarget (.path "/var/run/aurae/cell-a.sock"))
          { executable := some { raw := "e" } }).map (·.cell_name)
      ≠ some (some "a")) := by
  refine ⟨rfl, rfl, by simp [forwardedStartRequest, startTransformRequest]⟩

/-- C6 (amended): when a Start or Stop request carries a populated
`cell_name` but no `ExecutionTarget`, the handler synthesises
`ExecutionTarget{cell_path = cell_name}` and clears `cell_name` before
forwarding; every forwarded request has its outer `ExecutionTarget` stripped
and its payload preserved, with the inner `cell_name` set to the resolved
target's carried `cell_path` for a VM target and cleared (`None`) for a cell
target (whose full path was already resolved to that cell's own socket
locally, so no path travels along). -/
theorem C6_target_rewrite_amended :
    (∀ (req : CellServiceStartRequest) (c : String),
        req.execution_target = none → req.cell_name = some c →
        cellServiceStartRoute req
          = .forward { vm_id := none, cell_path := some c }
              { req with cell_name := none }) ∧
    (∀ (req : CellServiceStopRequest) (c : String),
        req.execution_target = none → req.cell_name = some c →
        cellServiceStopRoute req
          = .forward { vm_id := none, cell_path := some c }
              { req with cell_name := none }) ∧
    (∀ (resolved : ResolvedTarget) (req fwd : CellServiceStartRequest),
        forwardedStartRequest resolved req = some fwd →
        fwd.execution_target = none ∧
        fwd.executable = req.executable ∧
        fwd.uid = req.uid ∧ fwd.gid = req.gid ∧
        (∀ s p, resolved = .vmTarget s p → fwd.cell_name = p) ∧
        (∀ s, resolved = .cellTarget s → fwd.cell_name = none)) ∧
    (∀ (resolved : ResolvedTarget) (req fwd : CellServiceStopRequest),
        forwardedStopRequest resolved req = some fwd →
        fwd.execution_target = none ∧
        fwd.executable_name = req.executable_name ∧
        (∀ s p, resolved = .vmTarget s p → fwd.cell_name = p) ∧
        (∀ s, resolved = .cellTarget s → fwd.cell_name = none)) := by
  refine ⟨fun req c ht hc => ?_, fun req c ht hc => ?_,
    fun resolved req fwd hf => ?_, fun resolved req fwd hf => ?_⟩
  · simp [cellServiceStartRoute, ht, hc]
  · simp [cellServiceStopRoute, ht, hc]
  · cases resolved <;>
      simp only [forwardedStartRequest, startTransformRequest,
        Option.some.injEq, reduceCtorEq] at hf <;>
      subst hf <;>
      exact ⟨rfl, rfl, rfl, rfl, by intro s p h; cases h <;> rfl,
        by intro s h; cases h <;> rfl⟩
  · cases resolved <;>
      simp only [forwardedStopRequest, stopTransformRequest,
        Option.some.injEq, reduceCtorEq] at hf <;>
      subst hf <;>
      exact ⟨rfl, rfl, by intro s p h; cases h <;> rfl,
        by intro s h; cases h <;> rfl⟩

/-- C6 witness: the legacy conversion and the VM-branch rewrite at concrete
requests. -/
theorem C6_target_rewrite_amended_witness :
    (cellServiceStartRoute
        { cell_name := some "ae-1", executable := some { raw := "e" } }
      = .forward { vm_id := none, cell_path := some "ae-1" }
          { cell_name := none, executable := some { raw := "e" },
            uid := none, gid := none, execution_target := none }) ∧
    ((startTransformRequest { executable := some { raw := "e" } }
        (some "x/y")).execution_target = none ∧
      (startTransformRequest { executable := some { raw := "e" } }
        (some "x/y")).cell_name = some "x/y") :=
  ⟨C6_target_rewrite_amended.1
      { cell_name := some "ae-1", executable := some { raw := "e" } }
      "ae-1" rfl rfl,
   ⟨(C6_target_rewrite_amended.2.2.1 (.vmTarget (.addr "10.0.0.2:8080")
        (some "x/y")) { executable := some { raw := "e" } } _ rfl).1,
    (C6_target_rewrite_amended.2.2.1 (.vmTarget (.addr "10.0.0.2:8080")
        (some "x/y")) { executable := some { raw := "e" } } _
        rfl).2.2.2.2.1 _ _ rfl⟩⟩

/-! ## Forwarding retry policy
(`do_in_cell!` and both branches of `do_in_target!` in `cell_service.rs`) -/

/-- The arguments passed to `backoff::ExponentialBackoffBuilder` —
identically at the `do_in_cell!` site and at the Cell and Vm branches of
`do_in_target!`.  Durations in milliseconds; the two `f64` parameters are
exact rationals here. -/
structure BackoffPolicy where
  initial_interval_ms : ℚ
  multiplier : ℚ
  randomization_factor : ℚ
  max_interval_ms : ℚ
  max_elapsed_time_ms : Option ℚ
deriving DecidableEq, Repr

/-- The retry strategy the code builds:
`.with_initial_interval(50ms).with_multiplier(10.0)
.with_randomization_factor(0.5).with_max_interval(3s)
.with_max_elapsed_time(Some(20s))`. -/
def forwardRetryPolicy : BackoffPolicy :=
  { initial_interval_ms := 50
  , multiplier := 10
  , randomization_factor := 1/2
  , max_interval_ms := 3000
  , max_elapsed_time_ms := some 20000 }

/-- Modelled from the spec: the `backoff` crate (an external dependency, not
under the provided sources) multiplies the current interval by the
multiplier after each attempt and clamps it at the cap — "initial 50 ms,
multiplier ×10 per attempt, … cap 3 s per interval".  `nominalIntervalMs p k`
is attempt `k`'s interval before randomization. -/
def nominalIntervalMs (p : BackoffPolicy) : Nat → ℚ
  | 0 => p.initial_interval_ms
  | k + 1 => min p.max_interval_ms (nominalIntervalMs p k * p.multiplier)

/-- Modelled from the spec: the randomized delay is drawn uniformly from the
nominal interval scaled by `1 ∓ randomization_factor` ("randomization factor
±50 %"). -/
def randomizedRangeMs (p : BackoffPolicy) (i : ℚ) : ℚ × ℚ :=
  (i * (1 - p.randomization_factor), i * (1 + p.randomization_factor))

/-- Modelled from the spec: the strategy returns `None` (no further retry)
once the elapsed time exceeds the total budget ("total budget 20 s"). -/
def backoffGivesUp (p : BackoffPolicy) (elapsed_ms : ℚ) : Bool :=
  match p.max_elapsed_time_ms with
  | none => false
  | some m => decide (m < elapsed_ms)

/-- `client::ClientError`, matched by the dial loops and by
`vms/error.rs`. -/
inductive ClientError
  | ConnectionError (detail : String)
  | Other (detail : String)
deriving DecidableEq, Repr

/-- The dial loops of `do_in_cell!` and `do_in_target!`: a
`ClientError::ConnectionError` is retried while backoff permits; any other
error breaks out of the loop immediately. -/
def dialRetryable : ClientError → Bool
  | .ConnectionError _ => true
  | .Other _ => false

/-- The call-phase classification inside `backoff::future::retry`: a status
whose code is `Unknown` with message `"transport error"` is transient
(re-raised for retry); every other error becomes
`backoff::Error::Permanent` and surfaces immediately. -/
def callRetryable (s : Status) : Bool :=
  decide (s.code = .unknown) && (s.message == "transport error")

/-! ## Claim C7 -/

/-- C7: the forwarding retry policy is exponential backoff with initial
interval 50 ms, multiplier 10 per attempt, randomization factor ±50 %,
per-interval cap 3 s and total budget 20 s (so the nominal intervals are
50 ms, 500 ms, then 3 s forever); during the dial phase exactly the
connection errors are retried and during the call phase exactly a status
with code `Unknown` and message `"transport error"` is — every other error
is permanent. -/
theorem C7_retry_policy :
    (forwardRetryPolicy.initial_interval_ms = 50 ∧
     forwardRetryPolicy.multiplier = 10 ∧
     forwardRetryPolicy.randomization_factor = 1/2 ∧
     forwardRetryPolicy.max_interval_ms = 3000 ∧
     forwardRetryPolicy.max_elapsed_time_ms = some 20000) ∧
    (nominalIntervalMs forwardRetryPolicy 0 = 50 ∧
     nominalIntervalMs forwardRetryPolicy 1 = 500 ∧
     ∀ k, 2 ≤ k → nominalIntervalMs forwardRetryPolicy k = 3000) ∧
    (∀ i : ℚ, randomizedRangeMs forwardRetryPolicy i = (i / 2, 3 * i / 2)) ∧
    (∀ e : ℚ, backoffGivesUp forwardRetryPolicy e = true ↔ 20000 < e) ∧
    (∀ ce : ClientError,
        dialRetryable ce = true ↔ ∃ d, ce = .ConnectionError d) ∧
    (∀ s : Status, callRetryable s = true
        ↔ s.code = .unknown ∧ s.message = "transport error") := by
  refine ⟨⟨rfl, rfl, rfl, rfl, rfl⟩, ⟨?_, ?_, ?_⟩, ?_, ?_, ?_, ?_⟩
  · norm_num [nominalIntervalMs, forwardRetryPolicy]
  · norm_num [nominalIntervalMs, forwardRetryPolicy]
  · intro k hk
    induction k with
    | zero => omega
    | succ m ih =>
        rcases Nat.lt_or_ge m 2 with hm | hm
        · interval_cases m
          · omega
          · norm_num [nominalIntervalMs, forwardRetryPolicy]
        · rw [nominalIntervalMs, ih hm]
          norm_num [forwardRetryPolicy]
  · intro i
    simp only [randomizedRangeMs, forwardRetryPolicy, Prod.mk.injEq]
    constructor <;> ring
  · intro e
    simp [backoffGivesUp, forwardRetryPolicy]
  · intro ce
    cases ce <;> simp [dialRetryable]
  · intro s
    simp [callRetryable, beq_iff_eq]

/-- C7 witness: attempt 5's nominal interval is the 3 s cap; the budget is
exhausted at 20.001 s; a connection error is dial-retryable, an `Other`
error is not; the narrow transient status is call-retryable, a different
message is not. -/
theorem C7_retry_policy_witness :
    nominalIntervalMs forwardRetryPolicy 5 = 3000 ∧
    backoffGivesUp forwardRetryPolicy 20001 = true ∧
    dialRetryable (.ConnectionError "connection refused") = true ∧
    callRetryable { code := .unknown, message := "transport error" } = true :=
  ⟨C7_retry_policy.2.1.2.2 5 (by norm_num),
   (C7_retry_policy.2.2.2.1 20001).mpr (by norm_num),
   (C7_retry_policy.2.2.2.2.1 _).mpr ⟨"connection refused", rfl⟩,
   (C7_retry_policy.2.2.2.2.2 _).mpr ⟨rfl, rfl⟩⟩

end Aurae
